import Mathlib

/-!
Verification of the libkineto profiling configuration model
(`src/libkineto/src/Config.h`).

Embedding conventions:
* `std::chrono` durations and time points are embedded as their integer tick
  counts (`Int`): `milliseconds` and `seconds` keep their declared unit, and
  `time_point` values are nanosecond counts since the clock epoch, matching
  the `libstdc++` representation of `high_resolution_clock`.  Where C++
  implicitly converts between units (adding `seconds` to a nanosecond
  `time_point`), the conversion factor is made explicit.
* C++ `%` on integers is truncated remainder, embedded as `Int.tmod`.
* `std::set<std::string>` is embedded as `Finset String`; `std::vector` as
  `List`; `uint8_t` as `Fin 256`.
* A C++ function body containing `assert` is embedded as returning
  `AssertOr α`: with assertions enabled a failed assertion aborts the
  process, which the embedding records as `AssertOr.assertFailed`.
-/

namespace libkineto

/-- Result of running a C++ function body that contains an `assert`
statement: either some assertion fired (a fatal abort when assertions are
enabled) or the body ran to completion and returned a value. -/
inductive AssertOr (α : Type) where
  | assertFailed : AssertOr α
  | ok : α → AssertOr α

/-- C++ `assert(cond); body` pattern: when the condition holds the body
value is produced, otherwise the assertion aborts. -/
def cppAssert {α : Type} (cond : Bool) (body : α) : AssertOr α :=
  if cond then AssertOr.ok body else AssertOr.assertFailed

/-- The private member fields of `class Config` (Config.h lines 260-313),
with the in-class initializers of `eventReportPercentiles_` and
`eventProfilerDeviceMask_` as field defaults. -/
structure Config where
  verboseLogLevel_ : Int
  verboseLogModules_ : List String
  samplePeriod_ : Int
  reportPeriod_ : Int
  samplesPerReport_ : Int
  eventNames_ : Finset String
  metricNames_ : Finset String
  eventProfilerOnDemandDuration_ : Int
  eventProfilerOnDemandTimestamp_ : Int
  eventProfilerMaxInstancesPerGpu_ : Int
  eventLogFile_ : String
  eventReportPercentiles_ : List Int := [5, 25, 50, 75, 95]
  eventProfilerDeviceMask_ : Fin 256 := 255
  multiplexPeriod_ : Int
  activityProfilerEnabled_ : Bool
  activitiesLogFile_ : String
  activitiesMaxGpuBufferSize_ : Int
  activitiesWarmupDuration_ : Int
  activitiesOnDemandDuration_ : Int
  activitiesExternalAPIIterations_ : Int
  activitiesExternalAPIIterationsTarget_ : String
  activitiesExternalAPIFilter_ : List String
  activitiesExternalAPINetSizeThreshold_ : Int
  activitiesExternalAPIGpuOpCountThreshold_ : Int
  activitiesOnDemandTimestamp_ : Int
  requestTimestamp_ : Int
  enableSigUsr2_ : Bool

/-- `Config::alignUp` (Config.h lines 215-220):
`duration += alignment; return duration - (duration % alignment);`
where `%` on `std::chrono::milliseconds` is the C++ truncated remainder of
the underlying integer counts. -/
def Config.alignUp (duration alignment : Int) : Int :=
  let d := duration + alignment
  d - d.tmod alignment

/-- `Config::samplePeriod` accessor. -/
def Config.samplePeriod (c : Config) : Int :=
  c.samplePeriod_

/-- `Config::setSamplePeriod`. -/
def Config.setSamplePeriod (c : Config) (period : Int) : Config :=
  { c with samplePeriod_ := period }

/-- `Config::reportPeriod` accessor. -/
def Config.reportPeriod (c : Config) : Int :=
  c.reportPeriod_

/-- `Config::samplesPerReport` accessor. -/
def Config.samplesPerReport (c : Config) : Int :=
  c.samplesPerReport_

/-- `Config::setSamplesPerReport` (Config.h lines 95-97):
`samplesPerReport_ = count;` with no validation or clamping. -/
def Config.setSamplesPerReport (c : Config) (count : Int) : Config :=
  { c with samplesPerReport_ := count }

/-- `Config::eventNames` accessor. -/
def Config.eventNames (c : Config) : Finset String :=
  c.eventNames_

/-- `Config::addEvents` (Config.h lines 104-107):
`eventNames_.insert(names.begin(), names.end());`, i.e. set union into the
existing name set. -/
def Config.addEvents (c : Config) (names : Finset String) : Config :=
  { c with eventNames_ := c.eventNames_ ∪ names }

/-- `Config::metricNames` accessor. -/
def Config.metricNames (c : Config) : Finset String :=
  c.metricNames_

/-- `Config::addMetrics` (Config.h lines 114-117). -/
def Config.addMetrics (c : Config) (names : Finset String) : Config :=
  { c with metricNames_ := c.metricNames_ ∪ names }

/-- `Config::percentiles` accessor. -/
def Config.percentiles (c : Config) : List Int :=
  c.eventReportPercentiles_

/-- `Config::eventProfilerEnabledForDevice` (Config.h lines 52-54):
`return 0 != (eventProfilerDeviceMask_ & (1 << dev));` where the `uint8_t`
mask is integer-promoted before the bitwise and. -/
def Config.eventProfilerEnabledForDevice (c : Config) (dev : Nat) : Bool :=
  (c.eventProfilerDeviceMask_.val &&& (1 <<< dev)) != 0

/-- `Config::eventProfilerOnDemandDuration` accessor (seconds). -/
def Config.eventProfilerOnDemandDuration (c : Config) : Int :=
  c.eventProfilerOnDemandDuration_

/-- Unit conversion applied implicitly by C++ when a `std::chrono::seconds`
value is added to a nanosecond-based `time_point`. -/
def secondsToNanoseconds (s : Int) : Int :=
  s * 1000000000

/-- `Config::eventProfilerOnDemandStartTime` (Config.h lines 222-225). -/
def Config.eventProfilerOnDemandStartTime (c : Config) : Int :=
  c.eventProfilerOnDemandTimestamp_

/-- `Config::eventProfilerOnDemandEndTime` (Config.h lines 227-230):
`eventProfilerOnDemandTimestamp_ + eventProfilerOnDemandDuration_`, the
seconds duration being converted to the time point unit. -/
def Config.eventProfilerOnDemandEndTime (c : Config) : Int :=
  c.eventProfilerOnDemandTimestamp_ +
    secondsToNanoseconds c.eventProfilerOnDemandDuration_

/-- `Config::requestTimestamp` accessor: the tick count of the stored
synchronized request time point. -/
def Config.requestTimestamp (c : Config) : Int :=
  c.requestTimestamp_

/-- `Config::hasRequestTimestamp` (Config.h lines 192-194):
`return requestTimestamp_.time_since_epoch().count() > 0;` -/
def Config.hasRequestTimestamp (c : Config) : Bool :=
  decide (c.requestTimestamp_ > 0)

/-- `Config::cloneDerived` (Config.h lines 252-256):
`assert(false); return nullptr;` — the null `AbstractConfig*` result is
embedded as `none`. -/
def Config.cloneDerived : AssertOr (Option Config) :=
  cppAssert false none

/-- A concrete `Config` value used to instantiate universally quantified
results at an explicit input. -/
def sampleConfig : Config where
  verboseLogLevel_ := -1
  verboseLogModules_ := []
  samplePeriod_ := 100
  reportPeriod_ := 100
  samplesPerReport_ := 1
  eventNames_ := ∅
  metricNames_ := ∅
  eventProfilerOnDemandDuration_ := 30
  eventProfilerOnDemandTimestamp_ := 0
  eventProfilerMaxInstancesPerGpu_ := 1
  eventLogFile_ := ""
  multiplexPeriod_ := 1000
  activityProfilerEnabled_ := true
  activitiesLogFile_ := ""
  activitiesMaxGpuBufferSize_ := 128
  activitiesWarmupDuration_ := 5
  activitiesOnDemandDuration_ := 500
  activitiesExternalAPIIterations_ := 0
  activitiesExternalAPIIterationsTarget_ := ""
  activitiesExternalAPIFilter_ := []
  activitiesExternalAPINetSizeThreshold_ := 0
  activitiesExternalAPIGpuOpCountThreshold_ := 0
  activitiesOnDemandTimestamp_ := 0
  requestTimestamp_ := 0
  enableSigUsr2_ := false

/-- Claim C1: for every duration `d` and alignment `a > 0`, `alignUp d a` is
a multiple of `a` (`alignUp d a % a = 0`), satisfies
`d - a < alignUp d a` and `d ≤ alignUp d a`, and when `d` is an exact
multiple of `a` the result advances to the next boundary `d + a`. -/
theorem Config.alignUp_spec (d a : Int) (ha : 0 < a) :
    (Config.alignUp d a).tmod a = 0 ∧
      d - a < Config.alignUp d a ∧
      d ≤ Config.alignUp d a ∧
      (d.tmod a = 0 → Config.alignUp d a = d + a) := by
  have hx : Config.alignUp d a = (d + a) - (d + a).tmod a := rfl
  have hmul : Config.alignUp d a = a * ((d + a).tdiv a) := by
    rw [hx]
    linarith [Int.tdiv_add_tmod (d + a) a]
  have hlt : (d + a).tmod a < a := Int.tmod_lt_of_pos (d + a) ha
  have hgt : d < Config.alignUp d a := by
    rw [hx]; linarith
  refine ⟨?_, by linarith, le_of_lt hgt, ?_⟩
  · rw [hmul]
    exact Int.mul_tmod_right a _
  · intro hd
    have hdvd : a ∣ d + a := dvd_add (Int.dvd_of_tmod_eq_zero hd) dvd_rfl
    have hz : (d + a).tmod a = 0 := Int.tmod_eq_zero_of_dvd hdvd
    rw [hx, hz]
    ring

/-- Witness for C1 at `d = 12`, `a = 4` (an exact multiple, so the exact
multiple branch is also exercised: the result is `16 = 12 + 4`). -/
theorem Config.alignUp_spec_witness :
    (0 : Int) < 4 ∧
      ((Config.alignUp 12 4).tmod 4 = 0 ∧
        (12 : Int) - 4 < Config.alignUp 12 4 ∧
        (12 : Int) ≤ Config.alignUp 12 4 ∧
        ((12 : Int).tmod 4 = 0 → Config.alignUp 12 4 = 12 + 4)) :=
  ⟨by decide, Config.alignUp_spec 12 4 (by decide)⟩

/-- Claim C2 (code evaluation at the failing input): `Config::alignUp`
contains no zero check at all — with `alignment = 0` the C++ source
evaluates `duration % 0`, which is undefined behaviour, instead of failing
in a fatal-safe way.  In the embedding (`Int.tmod d 0 = d`) the function
silently returns `0` for every duration, demonstrating that no error is
signalled on this path. -/
theorem Config.alignUp_zero_alignment (d : Int) : Config.alignUp d 0 = 0 := by
  simp [Config.alignUp]

/-- Claim C3 counterexample: the invariant
`1 ≤ samplesPerReport ≤ reportPeriod / samplePeriod` does not hold after
every mutation.  `setSamplesPerReport` stores its argument verbatim, so
passing `count = 0` to a configuration with `reportPeriod = samplePeriod =
100` leaves the stored value `0` outside `[1, 1]`. -/
theorem Config.samplesPerReport_invariant_counterexample :
    ¬ (1 ≤ (sampleConfig.setSamplesPerReport 0).samplesPerReport ∧
        (sampleConfig.setSamplesPerReport 0).samplesPerReport ≤
          (sampleConfig.setSamplesPerReport 0).reportPeriod /
            (sampleConfig.setSamplesPerReport 0).samplePeriod) := by
  decide

/-- Claim C3 as amended: `setSamplesPerReport` stores the given count
verbatim and leaves the periods untouched; the documented range
`[1, reportPeriod / samplePeriod]` is not enforced by the mutators. -/
theorem Config.setSamplesPerReport_stores_verbatim (c : Config) (count : Int) :
    (c.setSamplesPerReport count).samplesPerReport = count ∧
      (c.setSamplesPerReport count).reportPeriod = c.reportPeriod ∧
      (c.setSamplesPerReport count).samplePeriod = c.samplePeriod :=
  ⟨rfl, rfl, rfl⟩

/-- Claim C4: `Config::cloneDerived` hits `assert(false)`: with assertions
enabled it signals a fatal assertion and aborts, and no value — in
particular not the null instance written after the assert — is ever
returned to the caller. -/
theorem Config.cloneDerived_fatal :
    Config.cloneDerived = AssertOr.assertFailed ∧
      ∀ v : Option Config, Config.cloneDerived ≠ AssertOr.ok v := by
  constructor
  · rfl
  · intro v h
    simp [Config.cloneDerived, cppAssert] at h

/-- Claim C6: `eventProfilerOnDemandEndTime` equals
`eventProfilerOnDemandStartTime` plus the on-demand duration (converted to
the time-point unit), so the event on-demand request is active at `t`
(start ≤ t < end) exactly when
`start ≤ t < start + duration`. -/
theorem Config.eventProfilerOnDemandEndTime_spec (c : Config) (t : Int) :
    c.eventProfilerOnDemandEndTime =
      c.eventProfilerOnDemandStartTime +
        secondsToNanoseconds c.eventProfilerOnDemandDuration ∧
      ((c.eventProfilerOnDemandStartTime ≤ t ∧
          t < c.eventProfilerOnDemandEndTime) ↔
        (c.eventProfilerOnDemandStartTime ≤ t ∧
          t < c.eventProfilerOnDemandStartTime +
            secondsToNanoseconds c.eventProfilerOnDemandDuration)) :=
  ⟨rfl, Iff.rfl⟩

/-- Claim C7: `addEvents` and `addMetrics` have union semantics — the
result is the union of the existing set and the added set, existing names
are preserved, and applying the same addition twice yields the same set as
applying it once. -/
theorem Config.addEvents_addMetrics_union (c : Config) (names : Finset String) :
    (c.addEvents names).eventNames = c.eventNames ∪ names ∧
      c.eventNames ⊆ (c.addEvents names).eventNames ∧
      ((c.addEvents names).addEvents names).eventNames =
        (c.addEvents names).eventNames ∧
      (c.addMetrics names).metricNames = c.metricNames ∪ names ∧
      c.metricNames ⊆ (c.addMetrics names).metricNames ∧
      ((c.addMetrics names).addMetrics names).metricNames =
        (c.addMetrics names).metricNames := by
  refine ⟨rfl, Finset.subset_union_left, ?_, rfl, Finset.subset_union_left, ?_⟩
  · show (c.eventNames_ ∪ names) ∪ names = c.eventNames_ ∪ names
    rw [Finset.union_assoc, Finset.union_self]
  · show (c.metricNames_ ∪ names) ∪ names = c.metricNames_ ∪ names
    rw [Finset.union_assoc, Finset.union_self]

/-- Modelled from the spec: the body of the default constructor
`Config::Config()` lives in `Config.cpp`, which is not part of the sources
here.  The two fields that claim C8 concerns carry in-class initializers in
`Config.h` — `eventReportPercentiles_ = {5, 25, 50, 75, 95}` (line 281) and
`eventProfilerDeviceMask_ = ~0` (line 282) — which the spec's lifecycle
section records as the constructed defaults ("percentiles default to
{5,25,50,75,95}, device mask defaults to all enabled").  The remaining
fields take the documented defaults from the spec's field table and header
comments (e.g. verbose log level `-1`). -/
def defaultConfig : Config where
  verboseLogLevel_ := -1
  verboseLogModules_ := []
  samplePeriod_ := 1000
  reportPeriod_ := 1000
  samplesPerReport_ := 1
  eventNames_ := ∅
  metricNames_ := ∅
  eventProfilerOnDemandDuration_ := 0
  eventProfilerOnDemandTimestamp_ := 0
  eventProfilerMaxInstancesPerGpu_ := 1
  eventLogFile_ := ""
  multiplexPeriod_ := 1000
  activityProfilerEnabled_ := true
  activitiesLogFile_ := ""
  activitiesMaxGpuBufferSize_ := 128
  activitiesWarmupDuration_ := 5
  activitiesOnDemandDuration_ := 500
  activitiesExternalAPIIterations_ := 0
  activitiesExternalAPIIterationsTarget_ := ""
  activitiesExternalAPIFilter_ := []
  activitiesExternalAPINetSizeThreshold_ := 0
  activitiesExternalAPIGpuOpCountThreshold_ := 0
  activitiesOnDemandTimestamp_ := 0
  requestTimestamp_ := 0
  enableSigUsr2_ := false

/-- Claim C8: a freshly constructed `Config` has the documented defaults:
`percentiles()` returns exactly `[5, 25, 50, 75, 95]` and the device mask
defaults to all-enabled, so `eventProfilerEnabledForDevice dev` is `true`
for every supported device index (`dev < 8`). -/
theorem Config.construction_defaults (dev : Nat) (hdev : dev < 8) :
    defaultConfig.percentiles = [5, 25, 50, 75, 95] ∧
      defaultConfig.eventProfilerEnabledForDevice dev = true := by
  refine ⟨rfl, ?_⟩
  interval_cases dev <;> decide

/-- Witness for C8 at device index `3`. -/
theorem Config.construction_defaults_witness :
    3 < 8 ∧
      (defaultConfig.percentiles = [5, 25, 50, 75, 95] ∧
        defaultConfig.eventProfilerEnabledForDevice 3 = true) :=
  ⟨by decide, Config.construction_defaults 3 (by decide)⟩

/-- Claim C9: the device enable mask holds only 8 bits.  For every
configuration state and every device index `dev` with `8 ≤ dev ≤ 31`,
`eventProfilerEnabledForDevice dev` is `false` regardless of the mask
value: the `uint8_t` mask is below `2 ^ dev`, so the tested bit is never
set. -/
theorem Config.deviceMask_eight_bits (c : Config) (dev : Nat)
    (h8 : 8 ≤ dev) (h31 : dev ≤ 31) :
    c.eventProfilerEnabledForDevice dev = false := by
  have h256 : (256 : Nat) ≤ 2 ^ dev := by
    calc (256 : Nat) = 2 ^ 8 := by norm_num
      _ ≤ 2 ^ dev := Nat.pow_le_pow_right (by norm_num) h8
  have hlt : c.eventProfilerDeviceMask_.val < 2 ^ dev :=
    lt_of_lt_of_le c.eventProfilerDeviceMask_.isLt h256
  have hbit : Nat.testBit c.eventProfilerDeviceMask_.val dev = false :=
    Nat.testBit_eq_false_of_lt hlt
  simp [Config.eventProfilerEnabledForDevice, Nat.one_shiftLeft,
    Nat.and_two_pow, hbit]

/-- Witness for C9 at the concrete configuration `sampleConfig` (whose mask
is the default all-ones byte) and device index `9`. -/
theorem Config.deviceMask_eight_bits_witness :
    8 ≤ 9 ∧ 9 ≤ 31 ∧ sampleConfig.eventProfilerEnabledForDevice 9 = false :=
  ⟨by decide, by decide,
    Config.deviceMask_eight_bits sampleConfig 9 (by decide) (by decide)⟩

/-- Claim C10: `hasRequestTimestamp` returns `true` exactly when the stored
synchronized request timestamp's offset from the clock epoch is strictly
positive; a timestamp at or before the epoch is reported as absent. -/
theorem Config.hasRequestTimestamp_iff (c : Config) :
    c.hasRequestTimestamp = true ↔ 0 < c.requestTimestamp := by
  simp [Config.hasRequestTimestamp, Config.requestTimestamp]

/-- Modelled from the spec: the state of one feature sub-config.
`AbstractConfig` and the feature machinery live in `AbstractConfig.h` /
`AbstractConfig.cpp`, which are not part of the sources here; per the spec a
feature config is "an independently owned, polymorphically cloned
configuration sub-object contributed by a pluggable module, parsed via
namespaced keys", so its state is a list of parsed key/value options. -/
structure FeatureConfig where
  options : List (String × String)
  deriving DecidableEq

/-- A heap of feature sub-config objects, addressed by natural numbers, with
a bump allocator.  This makes the ownership/aliasing content of the cloning
claim expressible: each owned `AbstractConfig*` is an address into the
heap. -/
structure Heap where
  mem : Nat → FeatureConfig
  next : Nat

/-- Allocate a fresh cell holding `v`, returning its address. -/
def Heap.alloc (h : Heap) (v : FeatureConfig) : Nat × Heap :=
  (h.next, ⟨fun a => if a = h.next then v else h.mem a, h.next + 1⟩)

/-- Mutate the cell at address `a` in place. -/
def Heap.write (h : Heap) (a : Nat) (v : FeatureConfig) : Heap :=
  ⟨fun x => if x = a then v else h.mem x, h.next⟩

/-- A `Config` together with the feature sub-config registry it inherits
from `AbstractConfig`: a mapping from feature name to the address of the
owned sub-config instance. -/
structure ConfigWithFeatures where
  base : Config
  featureConfigs_ : List (String × Nat)

/-- Modelled from the spec: `AbstractConfig::cloneFeaturesInto` (defined in
`AbstractConfig.cpp`, not among the sources here) "copies every
currently-registered feature sub-config into a target instance,
deep-cloning each one polymorphically through its own virtual clone".
Each sub-config value is copied into freshly allocated storage owned by
the target. -/
def cloneFeaturesInto : List (String × Nat) → Heap → List (String × Nat) × Heap
  | [], h => ([], h)
  | (name, addr) :: rest, h =>
    let p := Heap.alloc h (h.mem addr)
    let q := cloneFeaturesInto rest p.2
    ((name, p.1) :: q.1, q.2)

/-- `Config::clone` (Config.h lines 29-33): `new Config(*this)` — a
memberwise copy of the base fields via the defaulted private copy
constructor (line 250) — followed by `cloneFeaturesInto(*cfg)`. -/
def ConfigWithFeatures.clone (c : ConfigWithFeatures) (h : Heap) :
    ConfigWithFeatures × Heap :=
  let p := cloneFeaturesInto c.featureConfigs_ h
  (⟨c.base, p.1⟩, p.2)

theorem cloneFeaturesInto_next_le (fs : List (String × Nat)) (h : Heap) :
    h.next ≤ (cloneFeaturesInto fs h).2.next := by
  induction fs generalizing h with
  | nil => exact le_refl _
  | cons p rest ih =>
    obtain ⟨name, addr⟩ := p
    have step := ih (Heap.alloc h (h.mem addr)).2
    have hnext : (Heap.alloc h (h.mem addr)).2.next = h.next + 1 := rfl
    have heq : (cloneFeaturesInto ((name, addr) :: rest) h).2
        = (cloneFeaturesInto rest (Heap.alloc h (h.mem addr)).2).2 := rfl
    rw [heq]
    omega

theorem cloneFeaturesInto_mem_preserved (fs : List (String × Nat)) (h : Heap)
    (a : Nat) (ha : a < h.next) :
    (cloneFeaturesInto fs h).2.mem a = h.mem a := by
  induction fs generalizing h with
  | nil => rfl
  | cons p rest ih =>
    obtain ⟨name, addr⟩ := p
    have hne : a ≠ h.next := Nat.ne_of_lt ha
    have hmem : (Heap.alloc h (h.mem addr)).2.mem a = h.mem a := by
      simp [Heap.alloc, hne]
    have hlt : a < (Heap.alloc h (h.mem addr)).2.next := by
      have : (Heap.alloc h (h.mem addr)).2.next = h.next + 1 := rfl
      omega
    have heq : (cloneFeaturesInto ((name, addr) :: rest) h).2
        = (cloneFeaturesInto rest (Heap.alloc h (h.mem addr)).2).2 := rfl
    rw [heq, ih _ hlt, hmem]

theorem cloneFeaturesInto_fresh (fs : List (String × Nat)) (h : Heap) :
    ∀ q ∈ (cloneFeaturesInto fs h).1, h.next ≤ q.2 := by
  induction fs generalizing h with
  | nil =>
    intro q hq
    cases hq
  | cons p rest ih =>
    obtain ⟨name, addr⟩ := p
    intro q hq
    have hsplit : q = (name, h.next) ∨
        q ∈ (cloneFeaturesInto rest (Heap.alloc h (h.mem addr)).2).1 := by
      have heq : (cloneFeaturesInto ((name, addr) :: rest) h).1
          = (name, h.next) ::
              (cloneFeaturesInto rest (Heap.alloc h (h.mem addr)).2).1 := rfl
      rw [heq] at hq
      exact List.mem_cons.mp hq
    rcases hsplit with rfl | htail
    · exact le_refl _
    · have hstep := ih (Heap.alloc h (h.mem addr)).2 q htail
      have hnext : (Heap.alloc h (h.mem addr)).2.next = h.next + 1 := rfl
      omega

theorem cloneFeaturesInto_values (h0 : Heap) (fs : List (String × Nat)) :
    ∀ h : Heap, (∀ p ∈ fs, p.2 < h0.next) → h0.next ≤ h.next →
      (∀ a, a < h0.next → h.mem a = h0.mem a) →
      List.Forall₂
        (fun p q => p.1 = q.1 ∧ (cloneFeaturesInto fs h).2.mem q.2 = h0.mem p.2)
        fs (cloneFeaturesInto fs h).1 := by
  induction fs with
  | nil =>
    intro h _ _ _
    exact List.Forall₂.nil
  | cons p rest ih =>
    intro h hvalid hle hagree
    obtain ⟨name, addr⟩ := p
    have haddr : addr < h0.next := hvalid (name, addr) (List.mem_cons_self _ _)
    have hnext2 : (Heap.alloc h (h.mem addr)).2.next = h.next + 1 := rfl
    have hmemA : (Heap.alloc h (h.mem addr)).2.mem h.next = h.mem addr := by
      simp [Heap.alloc]
    have hfinal :
        (cloneFeaturesInto rest (Heap.alloc h (h.mem addr)).2).2.mem h.next
          = h.mem addr := by
      rw [cloneFeaturesInto_mem_preserved rest _ h.next (by omega), hmemA]
    have htail := ih (Heap.alloc h (h.mem addr)).2
      (fun p hp => hvalid p (List.mem_cons_of_mem _ hp))
      (by omega)
      (fun a ha => by
        have hne : a ≠ h.next := by omega
        have : (Heap.alloc h (h.mem addr)).2.mem a = h.mem a := by
          simp [Heap.alloc, hne]
        rw [this]
        exact hagree a ha)
    have hgoal : cloneFeaturesInto ((name, addr) :: rest) h
        = ((name, h.next) ::
              (cloneFeaturesInto rest (Heap.alloc h (h.mem addr)).2).1,
            (cloneFeaturesInto rest (Heap.alloc h (h.mem addr)).2).2) := rfl
    rw [hgoal]
    refine List.Forall₂.cons ⟨rfl, ?_⟩ htail
    rw [hfinal]
    exact hagree addr haddr

/-- Claim C5: for every configuration populated with any number of feature
sub-configs, `clone` yields a deep, independent copy: the base fields are
copied, each feature sub-config value is reproduced, cloning leaves every
original sub-config untouched, the clone owns addresses disjoint from the
original's (no ownership sharing), and mutating any of the clone's feature
sub-configs leaves every feature sub-config of the original unchanged.
(Base fields are plain values in the embedding, so replacing a field of the
clone trivially cannot alter the original.) -/
theorem ConfigWithFeatures.clone_deep_copy (c : ConfigWithFeatures) (h : Heap)
    (hvalid : ∀ p ∈ c.featureConfigs_, p.2 < h.next) :
    (c.clone h).1.base = c.base ∧
      List.Forall₂
        (fun p q => p.1 = q.1 ∧ (c.clone h).2.mem q.2 = h.mem p.2)
        c.featureConfigs_ (c.clone h).1.featureConfigs_ ∧
      (∀ p ∈ c.featureConfigs_, (c.clone h).2.mem p.2 = h.mem p.2) ∧
      (∀ q ∈ (c.clone h).1.featureConfigs_,
        ∀ p ∈ c.featureConfigs_, q.2 ≠ p.2) ∧
      (∀ q ∈ (c.clone h).1.featureConfigs_, ∀ v : FeatureConfig,
        ∀ p ∈ c.featureConfigs_,
          ((c.clone h).2.write q.2 v).mem p.2 = (c.clone h).2.mem p.2) := by
  have hclone1 : (c.clone h).1.featureConfigs_
      = (cloneFeaturesInto c.featureConfigs_ h).1 := rfl
  have hclone2 : (c.clone h).2 = (cloneFeaturesInto c.featureConfigs_ h).2 := rfl
  refine ⟨rfl, ?_, ?_, ?_, ?_⟩
  · rw [hclone1, hclone2]
    exact cloneFeaturesInto_values h c.featureConfigs_ h hvalid (le_refl _)
      (fun a _ => rfl)
  · intro p hp
    rw [hclone2]
    exact cloneFeaturesInto_mem_preserved _ h p.2 (hvalid p hp)
  · intro q hq p hp
    rw [hclone1] at hq
    have h1 := cloneFeaturesInto_fresh c.featureConfigs_ h q hq
    have h2 := hvalid p hp
    omega
  · intro q hq v p hp
    rw [hclone1] at hq
    have h1 := cloneFeaturesInto_fresh c.featureConfigs_ h q hq
    have h2 := hvalid p hp
    have hne : p.2 ≠ q.2 := by omega
    simp [Heap.write, hne]

/-- A concrete configuration with one feature sub-config, for the C5
witness. -/
def sampleConfigWithFeatures : ConfigWithFeatures where
  base := sampleConfig
  featureConfigs_ := [("cupti", 0)]

/-- A concrete one-cell heap for the C5 witness. -/
def sampleHeap : Heap where
  mem := fun _ => ⟨[("events", "instructions")]⟩
  next := 1

/-- Witness for C5 at a configuration holding one feature sub-config at
address `0` of a one-cell heap. -/
theorem ConfigWithFeatures.clone_deep_copy_witness :
    (∀ p ∈ sampleConfigWithFeatures.featureConfigs_, p.2 < sampleHeap.next) ∧
      ((sampleConfigWithFeatures.clone sampleHeap).1.base =
          sampleConfigWithFeatures.base ∧
        List.Forall₂
          (fun p q => p.1 = q.1 ∧
            (sampleConfigWithFeatures.clone sampleHeap).2.mem q.2 =
              sampleHeap.mem p.2)
          sampleConfigWithFeatures.featureConfigs_
          (sampleConfigWithFeatures.clone sampleHeap).1.featureConfigs_ ∧
        (∀ p ∈ sampleConfigWithFeatures.featureConfigs_,
          (sampleConfigWithFeatures.clone sampleHeap).2.mem p.2 =
            sampleHeap.mem p.2) ∧
        (∀ q ∈ (sampleConfigWithFeatures.clone sampleHeap).1.featureConfigs_,
          ∀ p ∈ sampleConfigWithFeatures.featureConfigs_, q.2 ≠ p.2) ∧
        (∀ q ∈ (sampleConfigWithFeatures.clone sampleHeap).1.featureConfigs_,
          ∀ v : FeatureConfig,
          ∀ p ∈ sampleConfigWithFeatures.featureConfigs_,
            ((sampleConfigWithFeatures.clone sampleHeap).2.write q.2 v).mem p.2 =
              (sampleConfigWithFeatures.clone sampleHeap).2.mem p.2)) :=
  ⟨by
      intro p hp
      have hpeq : p = ("cupti", 0) := by
        simpa [sampleConfigWithFeatures] using hp
      rw [hpeq]
      decide,
    ConfigWithFeatures.clone_deep_copy sampleConfigWithFeatures sampleHeap
      (by
        intro p hp
        have hpeq : p = ("cupti", 0) := by
          simpa [sampleConfigWithFeatures] using hp
        rw [hpeq]
        decide)⟩

end libkineto
